import Mathlib

/-!
Verification of the filtering-and-aggregation pipeline of app.py
(NYC crime dashboard).  The pandas dataframe operations of the source are
shallowly embedded as pure functions over lists of records:

* `load_data`       embeds load_data (app.py lines 41-62),
* `upload_fallback` embeds the uploader fallback (lines 75-85),
* `filtered_df`     embeds the filter mask (lines 164-169),
* `most_common_crime` embeds the mode call on ofns_desc (line 196),
* `crime_counts`, `hourly_counts`, `borough_counts` embed the
  value_counts calls (lines 382, 392, 404),
* `monthly_data`    embeds the trend groupby (lines 417-421),
* `run_interaction` embeds one full dashboard rerun, with the copy at
  line 169 and the colour-column assignment at lines 254-256 made
  explicit by state passing.

Numeric coordinate cells are modelled as `Option Rat` (pandas floats with
NaN as `none`); timestamps are modelled as already parsed calendar
values, since no claim concerns string parsing of dates.
-/

namespace App

/-- A parsed arrest_date value, as produced by pd.to_datetime. -/
structure Timestamp where
  year : Int
  month : Nat
  day : Nat
  hour : Nat
deriving DecidableEq, Repr

/-- dt.month_name() for months 1..12 (English locale, as in pandas). -/
def monthName : Nat → String
  | 1 => "January"
  | 2 => "February"
  | 3 => "March"
  | 4 => "April"
  | 5 => "May"
  | 6 => "June"
  | 7 => "July"
  | 8 => "August"
  | 9 => "September"
  | 10 => "October"
  | 11 => "November"
  | 12 => "December"
  | _ => ""

/-- Day-of-week index (0 = Sunday) of a Gregorian calendar date, by the
standard congruence; dt.day_name() reports the true calendar weekday,
which this computes. -/
def dayIndex (y : Int) (m : Nat) (d : Nat) : Nat :=
  let t : List Int := [0, 3, 2, 5, 0, 3, 5, 1, 4, 6, 2, 4]
  let y2 : Int := if m < 3 then y - 1 else y
  ((y2 + y2 / 4 - y2 / 100 + y2 / 400 + t.getD (m - 1) 0 + (d : Int)) % 7).toNat

/-- dt.day_name(): English weekday name of the date. -/
def dayName (t : Timestamp) : String :=
  match dayIndex t.year t.month t.day with
  | 0 => "Sunday"
  | 1 => "Monday"
  | 2 => "Tuesday"
  | 3 => "Wednesday"
  | 4 => "Thursday"
  | 5 => "Friday"
  | _ => "Saturday"

/-- One row of the loaded dataframe after preprocessing: the raw columns
the source reads plus the five derived time columns added at lines 54-58
(and 81-85) of app.py. -/
structure Record where
  arrest_date : Timestamp
  latitude : Rat
  longitude : Rat
  ofns_desc : String
  arrest_boro : Option String
  arrest_precinct : String
  year : Int
  month : Nat
  month_name : String
  day_of_week : String
  hour : Nat
deriving DecidableEq, Repr

/-- The user selections collected by the sidebar widgets:
selected_crimes, selected_month, selected_year, selected_boroughs
(app.py lines 113, 132, 143, 156).  selected_boroughs contains no null
entry: line 154 keeps only boroughs passing pd.notna. -/
structure FilterSpec where
  categories : List String
  month : Nat
  year : Int
  regions : List String
deriving DecidableEq, Repr

/-- The boolean mask of app.py lines 164-168: ofns_desc isin
selected_crimes, month equal, year equal, arrest_boro isin
selected_boroughs.  A null borough is never isin a list of strings,
hence the `none` case is false. -/
def passesFilter (spec : FilterSpec) (r : Record) : Bool :=
  spec.categories.contains r.ofns_desc && r.month == spec.month &&
    decide (r.year = spec.year) &&
    (match r.arrest_boro with
     | some b => spec.regions.contains b
     | none => false)

/-- filtered_df (app.py lines 164-169): the records of df passing the
mask, in their original order, as a fresh list (the source takes a copy,
so this list is a new object, never an alias of df). -/
def filtered_df (df : List Record) (spec : FilterSpec) : List Record :=
  df.filter (passesFilter spec)

/-- The four filter predicates exactly as the specification words them,
as a proposition, to be compared with the mask `passesFilter` taken from
the source: category in categories, month equal, year equal, region in
regions. -/
def passesFilterP (spec : FilterSpec) (r : Record) : Prop :=
  r.ofns_desc ∈ spec.categories ∧ r.month = spec.month ∧ r.year = spec.year ∧
    ∃ b, r.arrest_boro = some b ∧ b ∈ spec.regions

/-- Series.value_counts with its default dropna behaviour on a series
without nulls: one entry per distinct value with its number of
occurrences.  The source only consumes the key-to-count mapping (pie and
bar chart inputs); its descending-count display order carries no claimed
meaning, so keys are enumerated per distinct value. -/
def value_counts {α : Type} [DecidableEq α] (vals : List α) : List (α × Nat) :=
  vals.dedup.map (fun v => (v, vals.count v))

/-- Series.sort_index() on a value_counts result: rows reordered by
ascending key. -/
def sort_index (l : List (Nat × Nat)) : List (Nat × Nat) :=
  List.insertionSort (fun p q => p.1 ≤ q.1) l

/-- Sum of the counts of a key-to-count mapping. -/
def sumValues {α : Type} (l : List (α × Nat)) : Nat :=
  (l.map Prod.snd).sum

/-- crime_counts (app.py line 382): value_counts of the ofns_desc column
of the filtered frame. -/
def crime_counts (subset : List Record) : List (String × Nat) :=
  value_counts (subset.map (·.ofns_desc))

/-- hourly_counts (app.py line 392): value_counts of the hour column,
rows sorted by ascending hour. -/
def hourly_counts (subset : List Record) : List (Nat × Nat) :=
  sort_index (value_counts (subset.map (·.hour)))

/-- borough_counts (app.py line 404): value_counts of the arrest_boro
column; value_counts drops null entries (dropna default), modelled by
filterMap. -/
def borough_counts (subset : List Record) : List (String × Nat) :=
  value_counts (subset.filterMap (·.arrest_boro))

/-- The maximal multiplicity occurring in a list (0 for the empty list). -/
def max_count (vals : List String) : Nat :=
  (vals.dedup.map (fun v => vals.count v)).foldr max 0

/-- Series.mode(): the values of maximal multiplicity, in ascending
order (pandas documents the mode result as sorted). -/
def series_mode (vals : List String) : List String :=
  List.insertionSort (fun a b => a ≤ b)
    (vals.dedup.filter (fun v => vals.count v == max_count vals))

/-- most_common_crime (app.py line 196): mode of the ofns_desc column of
the filtered frame. -/
def most_common_crime (subset : List Record) : List String :=
  series_mode (subset.map (·.ofns_desc))

/-- The Top Crime Type metric (app.py line 199): first mode value when
the mode series is non-empty, otherwise the string N/A. -/
def top_crime_display (subset : List Record) : String :=
  (most_common_crime subset).headD "N/A"

/-- monthly_data (app.py lines 417-421): the full table filtered by
selected_crimes, selected_year and selected_boroughs only (the month
selection is not read), grouped by the pair (month, month_name) with
group sizes; groupby sorts the group keys ascending. -/
def monthly_data (df : List Record) (spec : FilterSpec) : List (Nat × String × Nat) :=
  let sub := df.filter (fun r =>
    spec.categories.contains r.ofns_desc && decide (r.year = spec.year) &&
      (match r.arrest_boro with
       | some b => spec.regions.contains b
       | none => false))
  let keys := List.insertionSort
    (fun p q : Nat × String => p.1 < q.1 ∨ (p.1 = q.1 ∧ p.2 ≤ q.2))
    (sub.map (fun r => (r.month, r.month_name))).dedup
  keys.map (fun k =>
    (k.1, k.2, (sub.filter (fun r => r.month == k.1 && r.month_name == k.2)).length))

/-- standard_colors (app.py lines 244-245). -/
def standard_colors : List String :=
  ["red", "blue", "green", "purple", "orange", "brown",
   "pink", "gray", "olive", "cyan", "yellow", "magenta"]

/-- color_dict of color_to_rgb (app.py lines 229-234). -/
def color_dict : List (String × List Nat) :=
  [("red", [255, 0, 0]), ("blue", [0, 0, 255]), ("green", [0, 255, 0]),
   ("purple", [128, 0, 128]), ("orange", [255, 165, 0]), ("brown", [165, 42, 42]),
   ("pink", [255, 192, 203]), ("gray", [128, 128, 128]), ("olive", [128, 128, 0]),
   ("cyan", [0, 255, 255]), ("yellow", [255, 255, 0]), ("magenta", [255, 0, 255])]

/-- color_to_rgb (app.py lines 213-238) on the inputs this program ever
passes it: every value of color_map is a name from standard_colors, so
the hex and rgb-string branches are dead and the named-colour lookup
with red as default is the live branch. -/
def color_to_rgb (color : String) : List Nat :=
  (color_dict.lookup color).getD [255, 0, 0]

/-- Series.unique(): distinct values in first-seen order. -/
def unique_first_seen (l : List String) : List String :=
  l.foldl (fun acc a => if a ∈ acc then acc else acc ++ [a]) []

/-- color_map (app.py lines 248-251): the i-th distinct crime type of
the subset is assigned standard_colors[i mod 12]. -/
def color_map (sub : List Record) : List (String × String) :=
  (unique_first_seen (sub.map (·.ofns_desc))).enum.map
    (fun p => (p.2, standard_colors.getD (p.1 % standard_colors.length) "red"))

/-- The colour-column assignment (app.py lines 254-256) applied to the
copied filtered frame: each row is paired with the RGB triple of its
crime type, the original table row itself staying untouched. -/
def add_color (sub : List Record) : List (Record × List Nat) :=
  sub.map (fun r => (r, color_to_rgb (((color_map sub).lookup r.ofns_desc).getD "red")))

/-- Everything one dashboard rerun derives from (df, spec). -/
structure Output where
  filtered : List (Record × List Nat)
  total_arrests : Nat
  top_crime : String
  crime : List (String × Nat)
  hourly : List (Nat × Nat)
  borough : List (String × Nat)
  trend : List (Nat × String × Nat)
deriving DecidableEq, Repr

/-- One full rerun of the script body on the loaded table: the filter
mask with copy (line 169), the colour assignment on the copy (lines
254-256), the metrics and charts (lines 177, 196-199, 382, 392, 404,
417-421).  The left component is the loaded table as it stands after the
rerun: every operation reads df but writes only to the copy, so the
table passes through unchanged. -/
def run_interaction (df : List Record) (spec : FilterSpec) : List Record × Output :=
  let sub := filtered_df df spec
  (df,
   { filtered := add_color sub
     total_arrests := sub.length
     top_crime := top_crime_display sub
     crime := crime_counts sub
     hourly := hourly_counts sub
     borough := borough_counts sub
     trend := monthly_data df spec })

/-- One raw CSV row.  The latitude and longitude cells are optional
(NaN as `none`); a field of a row carries the value the cell would hold
when its column is present in the file. -/
structure RawRow where
  arrest_date : Timestamp
  latitude : Option Rat
  longitude : Option Rat
  ofns_desc : String
  arrest_boro : Option String
  arrest_precinct : String
deriving DecidableEq, Repr

/-- A CSV source: the header (list of column names) and the data rows.
Accessing a column absent from the header raises a pandas KeyError
naming it, which the loader embedding checks at each access. -/
structure Csv where
  columns : List String
  rows : List RawRow
deriving DecidableEq, Repr

/-- The pandas error the loader can raise: a KeyError listing the
missing column labels of a failed column access. -/
inductive PdError where
  | keyError (cols : List String)
deriving DecidableEq, Repr

/-- The five derived time columns (app.py lines 54-58) attached to a
retained raw row. -/
def mkRecord (r : RawRow) : Record where
  arrest_date := r.arrest_date
  latitude := r.latitude.getD 0
  longitude := r.longitude.getD 0
  ofns_desc := r.ofns_desc
  arrest_boro := r.arrest_boro
  arrest_precinct := r.arrest_precinct
  year := r.arrest_date.year
  month := r.arrest_date.month
  month_name := monthName r.arrest_date.month
  day_of_week := dayName r.arrest_date
  hour := r.arrest_date.hour

/-- The preprocessing statements shared by load_data (app.py lines
49-58) and the uploader fallback (lines 77-85): parse arrest_date
(KeyError when the column is absent), dropna on latitude and longitude
(KeyError naming whichever of the two is absent), keep rows with both
coordinates different from zero, then add the derived time columns. -/
def preprocess (csv : Csv) : Except PdError (List Record) :=
  if "arrest_date" ∈ csv.columns then
    if (["latitude", "longitude"].filter (fun c => decide (c ∉ csv.columns))).isEmpty then
      Except.ok (((csv.rows.filter
        (fun r => r.latitude.isSome && r.longitude.isSome)).filter
          (fun r => decide (r.latitude.getD 0 ≠ 0) &&
            decide (r.longitude.getD 0 ≠ 0))).map mkRecord)
    else Except.error (PdError.keyError
      (["latitude", "longitude"].filter (fun c => decide (c ∉ csv.columns))))
  else Except.error (PdError.keyError ["arrest_date"])

/-- What the call df = load_data() can leave behind. -/
inductive LoadResult where
  | ok (df : List Record)
  | notFound
  | raised (e : PdError)
deriving DecidableEq, Repr

/-- load_data (app.py lines 41-62).  A missing file (`none` source) is
caught and turned into a None result; any KeyError of the preprocessing
propagates uncaught, since the except clause handles FileNotFoundError
only. -/
def load_data (src : Option Csv) : LoadResult :=
  match src with
  | none => LoadResult.notFound
  | some csv =>
    match preprocess csv with
    | Except.ok df => LoadResult.ok df
    | Except.error e => LoadResult.raised e

/-- What the uploader fallback can leave behind: a preprocessed table, a
raw table passed through untouched, or a propagated pandas error. -/
inductive UploadResult where
  | processed (df : List Record)
  | raw (rows : List RawRow)
  | raised (e : PdError)
deriving DecidableEq, Repr

/-- The uploader fallback (app.py lines 75-85): the uploaded CSV is read
and, only when an arrest_date column is present, run through the same
preprocessing as load_data; otherwise the raw frame is used as-is. -/
def upload_fallback (csv : Csv) : UploadResult :=
  if "arrest_date" ∈ csv.columns then
    match preprocess csv with
    | Except.ok df => UploadResult.processed df
    | Except.error e => UploadResult.raised e
  else UploadResult.raw csv.rows

/-! Concrete sample data for the closed witness and counterexample
statements. -/

/-- A valid row: ROBBERY in Manhattan, January 6 2020, 14:00. -/
def rowA : RawRow :=
  { arrest_date := ⟨2020, 1, 6, 14⟩, latitude := some 41, longitude := some (-74),
    ofns_desc := "ROBBERY", arrest_boro := some "M", arrest_precinct := "14" }

/-- A valid row: THEFT-FRAUD in Manhattan, January 7 2020, 9:00. -/
def rowB : RawRow :=
  { arrest_date := ⟨2020, 1, 7, 9⟩, latitude := some 41, longitude := some (-74),
    ofns_desc := "THEFT-FRAUD", arrest_boro := some "M", arrest_precinct := "14" }

/-- A valid row: ROBBERY in Brooklyn, February 7 2020, 9:00. -/
def rowC : RawRow :=
  { arrest_date := ⟨2020, 2, 7, 9⟩, latitude := some 41, longitude := some (-74),
    ofns_desc := "ROBBERY", arrest_boro := some "B", arrest_precinct := "60" }

/-- A row with latitude exactly zero but longitude non-null, non-zero. -/
def rowZero : RawRow :=
  { arrest_date := ⟨2020, 1, 6, 14⟩, latitude := some 0, longitude := some 1,
    ofns_desc := "ROBBERY", arrest_boro := some "M", arrest_precinct := "14" }

/-- A row with a null latitude. -/
def rowNull : RawRow :=
  { arrest_date := ⟨2020, 1, 6, 14⟩, latitude := none, longitude := some (-74),
    ofns_desc := "ROBBERY", arrest_boro := some "M", arrest_precinct := "14" }

/-- The full expected header (app.py line 458 plus the key column). -/
def fullColumns : List String :=
  ["arrest_key", "arrest_date", "ofns_desc", "arrest_boro", "arrest_precinct",
   "latitude", "longitude"]

/-- A source whose only data row has one zero coordinate. -/
def csvZero : Csv := ⟨fullColumns, [rowZero]⟩

/-- A source missing the latitude column. -/
def csvNoLat : Csv :=
  ⟨["arrest_key", "arrest_date", "ofns_desc", "arrest_boro", "arrest_precinct",
    "longitude"], [rowA]⟩

/-- A source missing the category column ofns_desc. -/
def csvNoCat : Csv :=
  ⟨["arrest_key", "arrest_date", "arrest_boro", "arrest_precinct",
    "latitude", "longitude"], [rowA]⟩

/-- A complete source mixing valid, zero-coordinate and null-coordinate
rows. -/
def csvGood : Csv := ⟨fullColumns, [rowA, rowZero, rowNull, rowB]⟩

/-- An uploaded source without an arrest_date column, holding a
null-coordinate row and a zero-coordinate row. -/
def csvUpload : Csv := ⟨["latitude", "longitude", "ofns_desc"], [rowNull, rowZero]⟩

/-- The loaded sample table. -/
def dfW : List Record := [mkRecord rowA, mkRecord rowB, mkRecord rowC]

/-- A spec matching the two January Manhattan rows of dfW. -/
def specW : FilterSpec :=
  { categories := ["ROBBERY", "THEFT-FRAUD"], month := 1, year := 2020,
    regions := ["M"] }

/-- Same as specW except for the selected month. -/
def specW2 : FilterSpec :=
  { categories := ["ROBBERY", "THEFT-FRAUD"], month := 2, year := 2020,
    regions := ["M"] }

/-- A spec matching no record of dfW (month 7 has no data). -/
def specEmpty : FilterSpec :=
  { categories := ["ROBBERY", "THEFT-FRAUD"], month := 7, year := 2020,
    regions := ["M"] }

/-! Helper lemmas shared by the claim theorems. -/

theorem passesFilter_iff (spec : FilterSpec) (r : Record) :
    passesFilter spec r = true ↔ passesFilterP spec r := by
  cases hb : r.arrest_boro with
  | none => simp [passesFilter, passesFilterP, hb, and_assoc]
  | some b => simp [passesFilter, passesFilterP, hb, and_assoc]

theorem sumValues_value_counts {α : Type} [DecidableEq α] (vals : List α) :
    sumValues (value_counts vals) = vals.length := by
  unfold sumValues value_counts
  rw [List.map_map]
  exact List.sum_map_count_dedup_eq_length vals

theorem sumValues_sort_index (l : List (Nat × Nat)) :
    sumValues (sort_index l) = sumValues l := by
  unfold sumValues sort_index
  exact ((List.perm_insertionSort _ l).map Prod.snd).sum_eq

theorem length_filterMap_of_isSome {α β : Type} (f : α → Option β) :
    ∀ l : List α, (∀ a ∈ l, (f a).isSome) → (l.filterMap f).length = l.length
  | [], _ => rfl
  | a :: l, h => by
    have ha := h a (List.mem_cons_self a l)
    cases hfa : f a with
    | none => rw [hfa] at ha; exact absurd ha (by simp)
    | some b =>
      rw [List.filterMap_cons, hfa]
      simp only [List.length_cons]
      rw [length_filterMap_of_isSome f l (fun x hx => h x (List.mem_cons_of_mem a hx))]

theorem passesFilter_boro_isSome {spec : FilterSpec} {r : Record}
    (h : passesFilter spec r = true) : r.arrest_boro.isSome := by
  cases hb : r.arrest_boro with
  | none => rw [passesFilter, hb] at h; simp at h
  | some b => rfl

theorem foldr_max_mem : ∀ l : List Nat, l ≠ [] → l.foldr max 0 ∈ l := by
  intro l
  induction l with
  | nil => intro h; exact absurd rfl h
  | cons a t ih =>
    intro _
    cases t with
    | nil => simp
    | cons b u =>
      rw [List.foldr_cons]
      rcases max_choice a ((b :: u).foldr max 0) with h | h
      · rw [h]; exact List.mem_cons_self _ _
      · rw [h]; exact List.mem_cons_of_mem _ (ih (by simp))

theorem le_foldr_max : ∀ (l : List Nat) (x : Nat), x ∈ l → x ≤ l.foldr max 0 := by
  intro l
  induction l with
  | nil => intro x hx; cases hx
  | cons a t ih =>
    intro x hx
    rw [List.foldr_cons]
    rcases List.mem_cons.mp hx with rfl | hx
    · exact Nat.le_max_left _ _
    · exact le_trans (ih x hx) (Nat.le_max_right _ _)

/-- The mode of a non-empty series is non-empty; its first element is a
value of maximal multiplicity and is the least (ascending string order)
among the values sharing that maximal multiplicity. -/
theorem series_mode_spec (vals : List String) (h : vals ≠ []) :
    ∃ c t, series_mode vals = c :: t ∧ c ∈ vals.dedup ∧
      vals.count c = max_count vals ∧
      (∀ v ∈ vals.dedup, vals.count v ≤ vals.count c) ∧
      (∀ v ∈ vals.dedup, vals.count v = vals.count c → c ≤ v) := by
  have hd : vals.dedup ≠ [] := by
    rw [Ne, List.dedup_eq_nil]
    exact h
  have hmem : max_count vals ∈ vals.dedup.map (fun v => vals.count v) := by
    apply foldr_max_mem
    simpa using hd
  obtain ⟨v0, hv0d, hv0⟩ := List.mem_map.mp hmem
  have hv0m : v0 ∈ vals.dedup.filter (fun v => vals.count v == max_count vals) :=
    List.mem_filter.mpr ⟨hv0d, by simp [hv0]⟩
  cases hs : List.insertionSort (fun a b : String => a ≤ b)
      (vals.dedup.filter (fun v => vals.count v == max_count vals)) with
  | nil =>
    have hperm := List.perm_insertionSort (fun a b : String => a ≤ b)
      (vals.dedup.filter (fun v => vals.count v == max_count vals))
    rw [hs] at hperm
    exact absurd hperm.symm.eq_nil (List.ne_nil_of_mem hv0m)
  | cons c t =>
    have hperm := List.perm_insertionSort (fun a b : String => a ≤ b)
      (vals.dedup.filter (fun v => vals.count v == max_count vals))
    rw [hs] at hperm
    have hcm : c ∈ vals.dedup.filter (fun v => vals.count v == max_count vals) :=
      hperm.mem_iff.mp (List.mem_cons_self c t)
    have hcf := List.mem_filter.mp hcm
    have hcc : vals.count c = max_count vals := by simpa using hcf.2
    have hsorted : List.Sorted (fun a b : String => a ≤ b) (c :: t) := by
      rw [← hs]
      exact List.sorted_insertionSort _ _
    have hmin : ∀ v ∈ vals.dedup.filter
        (fun v => vals.count v == max_count vals), c ≤ v := by
      intro v hvm
      have hv : v ∈ c :: t := hperm.mem_iff.mpr hvm
      rcases List.mem_cons.mp hv with rfl | hv
      · exact le_refl v
      · exact List.rel_of_sorted_cons hsorted v hv
    refine ⟨c, t, hs, hcf.1, hcc, ?_, ?_⟩
    · intro v hvd
      rw [hcc]
      exact le_foldr_max _ _ (List.mem_map.mpr ⟨v, hvd, rfl⟩)
    · intro v hvd hveq
      apply hmin
      exact List.mem_filter.mpr ⟨hvd, by simp [hveq.trans hcc]⟩

/-! Claim theorems. -/

/-- C1: filter(table, spec) is a subsequence of the table (original
relative order); its members are exactly the records of the table whose
category is in the selected categories, whose month and year equal the
selected ones, and whose region is in the selected regions; any record
of the table outside the result fails at least one of the four
predicates. -/
theorem filtered_df_sound_complete (df : List Record) (spec : FilterSpec) :
    (filtered_df df spec).Sublist df ∧
      (∀ r, r ∈ filtered_df df spec ↔ r ∈ df ∧ passesFilterP spec r) := by
  refine ⟨List.filter_sublist df, fun r => ?_⟩
  rw [filtered_df, List.mem_filter, passesFilter_iff]

/-- C8: filtering its own output again with the same spec returns that
output unchanged. -/
theorem filtered_df_idempotent (df : List Record) (spec : FilterSpec) :
    filtered_df (filtered_df df spec) spec = filtered_df df spec := by
  simp [filtered_df, List.filter_filter]

/-- C4: for every filtered subset, the counts of crime_counts sum to the
size of the subset, and likewise for hourly_counts and borough_counts. -/
theorem counts_sum_eq_length (df : List Record) (spec : FilterSpec) :
    sumValues (crime_counts (filtered_df df spec)) = (filtered_df df spec).length ∧
      sumValues (hourly_counts (filtered_df df spec)) = (filtered_df df spec).length ∧
      sumValues (borough_counts (filtered_df df spec)) = (filtered_df df spec).length := by
  refine ⟨?_, ?_, ?_⟩
  · rw [crime_counts, sumValues_value_counts, List.length_map]
  · rw [hourly_counts, sumValues_sort_index, sumValues_value_counts, List.length_map]
  · rw [borough_counts, sumValues_value_counts]
    apply length_filterMap_of_isSome
    intro r hr
    exact passesFilter_boro_isSome ((List.mem_filter.mp hr).2)

/-- C5: when no record matches the spec, the three count mappings are
all empty and the Top Crime Type metric shows the distinguished value
N/A; no pipeline operation fails on the empty subset. -/
theorem empty_filter_neutral (df : List Record) (spec : FilterSpec)
    (h : filtered_df df spec = []) :
    crime_counts (filtered_df df spec) = [] ∧
      hourly_counts (filtered_df df spec) = [] ∧
      borough_counts (filtered_df df spec) = [] ∧
      top_crime_display (filtered_df df spec) = "N/A" := by
  rw [h]
  exact ⟨rfl, rfl, rfl, rfl⟩

/-- C5 witness: a concrete table and spec with no match. -/
theorem empty_filter_neutral_witness :
    filtered_df dfW specEmpty = [] ∧
      crime_counts (filtered_df dfW specEmpty) = [] ∧
      hourly_counts (filtered_df dfW specEmpty) = [] ∧
      borough_counts (filtered_df dfW specEmpty) = [] ∧
      top_crime_display (filtered_df dfW specEmpty) = "N/A" := by
  have h : filtered_df dfW specEmpty = [] := by decide
  exact ⟨h, empty_filter_neutral dfW specEmpty h⟩

/-- C3: the monthly trend reads only the selected categories, year and
regions; two specs differing only in the selected month produce the same
ordered trend series. -/
theorem monthly_data_month_independent (df : List Record) (s1 s2 : FilterSpec)
    (hc : s1.categories = s2.categories) (hy : s1.year = s2.year)
    (hr : s1.regions = s2.regions) :
    monthly_data df s1 = monthly_data df s2 := by
  simp only [monthly_data, hc, hy, hr]

/-- C3 witness: two concrete specs differing only in the month give the
same trend series on the sample table. -/
theorem monthly_data_month_independent_witness :
    specW.categories = specW2.categories ∧ specW.year = specW2.year ∧
      specW.regions = specW2.regions ∧ specW.month ≠ specW2.month ∧
      monthly_data dfW specW = monthly_data dfW specW2 :=
  ⟨rfl, rfl, rfl, by decide,
    monthly_data_month_independent dfW specW specW2 rfl rfl rfl⟩

/-- C9: a full dashboard rerun leaves the loaded table exactly as it
was, and the colour-decorated view projects back to the filtered subset
record for record. -/
theorem run_interaction_preserves_table (df : List Record) (spec : FilterSpec) :
    (run_interaction df spec).1 = df ∧
      (run_interaction df spec).2.filtered.map Prod.fst = filtered_df df spec := by
  refine ⟨rfl, ?_⟩
  show (add_color (filtered_df df spec)).map Prod.fst = filtered_df df spec
  rw [add_color, List.map_map]
  exact List.map_id _

/-- C10: when the uploaded CSV has no arrest_date column the fallback
path applies no preprocessing at all: every row is kept verbatim
(null and zero coordinates included) and no derived time column is
computed. -/
theorem upload_fallback_no_preprocess (csv : Csv)
    (h : "arrest_date" ∉ csv.columns) :
    upload_fallback csv = UploadResult.raw csv.rows := by
  rw [upload_fallback, if_neg h]

/-- C6: on a non-empty subset the Top Crime Type metric is a key of
crime_counts holding the maximal count, and among the keys sharing that
maximal count it is the first in ascending lexical order. -/
theorem most_common_crime_max_lex (df : List Record) (spec : FilterSpec)
    (h : filtered_df df spec ≠ []) :
    ∃ n, (top_crime_display (filtered_df df spec), n) ∈
        crime_counts (filtered_df df spec) ∧
      (∀ p ∈ crime_counts (filtered_df df spec), p.2 ≤ n) ∧
      (∀ p ∈ crime_counts (filtered_df df spec), p.2 = n →
        top_crime_display (filtered_df df spec) ≤ p.1) := by
  have hv : (filtered_df df spec).map (fun r => r.ofns_desc) ≠ [] := by
    simpa using h
  obtain ⟨c, t, hs, hcd, _, hmax, hlex⟩ :=
    series_mode_spec ((filtered_df df spec).map (fun r => r.ofns_desc)) hv
  have htop : top_crime_display (filtered_df df spec) = c := by
    rw [top_crime_display, most_common_crime, hs]
    rfl
  refine ⟨((filtered_df df spec).map (fun r => r.ofns_desc)).count c, ?_, ?_, ?_⟩
  · rw [htop, crime_counts, value_counts]
    exact List.mem_map.mpr ⟨c, hcd, rfl⟩
  · intro p hp
    rw [crime_counts, value_counts] at hp
    obtain ⟨v, hvd, rfl⟩ := List.mem_map.mp hp
    exact hmax v hvd
  · intro p hp hpe
    rw [crime_counts, value_counts] at hp
    obtain ⟨v, hvd, rfl⟩ := List.mem_map.mp hp
    rw [htop]
    exact hlex v hvd hpe

/-- C6 witness: on the sample table and spec the subset is non-empty
(two categories tie at one arrest each, exercising the lexical
tie-break). -/
theorem most_common_crime_max_lex_witness :
    filtered_df dfW specW ≠ [] ∧
      ∃ n, (top_crime_display (filtered_df dfW specW), n) ∈
          crime_counts (filtered_df dfW specW) ∧
        (∀ p ∈ crime_counts (filtered_df dfW specW), p.2 ≤ n) ∧
        (∀ p ∈ crime_counts (filtered_df dfW specW), p.2 = n →
          top_crime_display (filtered_df dfW specW) ≤ p.1) :=
  ⟨by decide, most_common_crime_max_lex dfW specW (by decide)⟩

/-- C2 counterexample: the single row of csvZero has exactly one zero
coordinate (latitude 0, longitude 1, both non-null), so under the
claimed drop condition (null, or both zero) it would be retained; the
loader drops it and returns the empty table. -/
theorem load_drop_counterexample :
    load_data (some csvZero) = LoadResult.ok [] ∧
      ¬ (rowZero.latitude = none ∨ rowZero.longitude = none ∨
          (rowZero.latitude = some 0 ∧ rowZero.longitude = some 0)) :=
  ⟨by decide, by decide⟩

/-- C2 amended: on a source with the three preprocessed columns present,
the loader retains exactly the rows whose latitude and longitude are
both non-null and both different from zero — a single zero coordinate
already drops the row — keeping input order and attaching the derived
time fields. -/
theorem load_data_retained (csv : Csv)
    (h1 : "arrest_date" ∈ csv.columns) (h2 : "latitude" ∈ csv.columns)
    (h3 : "longitude" ∈ csv.columns) :
    load_data (some csv) = LoadResult.ok ((csv.rows.filter (fun r =>
      decide (¬ (r.latitude = none ∨ r.longitude = none ∨
        r.latitude = some 0 ∨ r.longitude = some 0)))).map mkRecord) := by
  have hm : (["latitude", "longitude"].filter
      (fun c => decide (c ∉ csv.columns))).isEmpty = true := by
    simp [h2, h3]
  have hp : preprocess csv = Except.ok ((csv.rows.filter (fun r =>
      decide (¬ (r.latitude = none ∨ r.longitude = none ∨
        r.latitude = some 0 ∨ r.longitude = some 0)))).map mkRecord) := by
    rw [preprocess, if_pos h1, if_pos hm]
    congr 1
    rw [List.filter_filter]
    congr 1
    apply List.filter_congr
    intro r _
    cases hla : r.latitude with
    | none => simp [hla]
    | some a =>
      cases hlo : r.longitude with
      | none => simp [hla, hlo]
      | some b =>
        by_cases ha : a = 0 <;> by_cases hb : b = 0 <;> simp [hla, hlo, ha, hb]
  simp only [load_data, hp]

/-- C2 amended witness: on the mixed sample source only the two fully
geolocated rows survive, in order. -/
theorem load_data_retained_witness :
    "arrest_date" ∈ csvGood.columns ∧ "latitude" ∈ csvGood.columns ∧
      "longitude" ∈ csvGood.columns ∧
      load_data (some csvGood) = LoadResult.ok [mkRecord rowA, mkRecord rowB] := by
  refine ⟨by decide, by decide, by decide, ?_⟩
  exact (load_data_retained csvGood (by decide) (by decide) (by decide)).trans (by decide)

/-- C7 counterexample: a source missing the category column ofns_desc
loads without any error at all (the loader touches only arrest_date,
latitude and longitude), and a source missing latitude raises a plain
pandas KeyError, the only error type the loader can produce — there is
no SchemaError anywhere. -/
theorem schema_error_counterexample :
    "ofns_desc" ∉ csvNoCat.columns ∧
      load_data (some csvNoCat) = LoadResult.ok [mkRecord rowA] ∧
      "latitude" ∉ csvNoLat.columns ∧
      load_data (some csvNoLat) = LoadResult.raised (PdError.keyError ["latitude"]) :=
  ⟨by decide, by decide, by decide, by decide⟩

/-- C7 amended: a source missing arrest_date raises KeyError on
arrest_date; with arrest_date present, a source missing latitude or
longitude raises one generic KeyError naming whichever of the two
coordinate columns are absent (uncaught: load_data handles only a
missing file); with all three present the load succeeds even when the
category or region column is absent, since those are first touched
later by the UI code. -/
theorem load_data_missing_columns (csv : Csv) :
    ("arrest_date" ∉ csv.columns →
      load_data (some csv) = LoadResult.raised (PdError.keyError ["arrest_date"])) ∧
      ("arrest_date" ∈ csv.columns →
        ("latitude" ∉ csv.columns ∨ "longitude" ∉ csv.columns) →
        load_data (some csv) = LoadResult.raised (PdError.keyError
          (["latitude", "longitude"].filter (fun c => decide (c ∉ csv.columns))))) ∧
      ("arrest_date" ∈ csv.columns → "latitude" ∈ csv.columns →
        "longitude" ∈ csv.columns →
        ∃ t, load_data (some csv) = LoadResult.ok t) := by
  refine ⟨?_, ?_, ?_⟩
  · intro h
    have hp : preprocess csv = Except.error (PdError.keyError ["arrest_date"]) := by
      rw [preprocess, if_neg h]
    simp only [load_data, hp]
  · intro h1 h2
    have hne : ["latitude", "longitude"].filter (fun c => decide (c ∉ csv.columns)) ≠ [] := by
      rcases h2 with h2 | h2
      · have hmem : "latitude" ∈ ["latitude", "longitude"].filter
            (fun c => decide (c ∉ csv.columns)) := by simp [h2]
        exact List.ne_nil_of_mem hmem
      · have hmem : "longitude" ∈ ["latitude", "longitude"].filter
            (fun c => decide (c ∉ csv.columns)) := by simp [h2]
        exact List.ne_nil_of_mem hmem
    have hm : ¬ ((["latitude", "longitude"].filter
        (fun c => decide (c ∉ csv.columns))).isEmpty = true) := by
      rw [List.isEmpty_iff]
      exact hne
    have hp : preprocess csv = Except.error (PdError.keyError
        (["latitude", "longitude"].filter (fun c => decide (c ∉ csv.columns)))) := by
      rw [preprocess, if_pos h1, if_neg hm]
    simp only [load_data, hp]
  · intro h1 h2 h3
    have hm : (["latitude", "longitude"].filter
        (fun c => decide (c ∉ csv.columns))).isEmpty = true := by
      simp [h2, h3]
    have hp : preprocess csv = Except.ok (((csv.rows.filter
        (fun r => r.latitude.isSome && r.longitude.isSome)).filter (fun r =>
          decide (r.latitude.getD 0 ≠ 0) && decide (r.longitude.getD 0 ≠ 0))).map
            mkRecord) := by
      rw [preprocess, if_pos h1, if_pos hm]
    exact ⟨_, by simp only [load_data, hp]; rfl⟩

/-- C7 amended witness: the source missing latitude raises the KeyError
naming latitude. -/
theorem load_data_missing_columns_witness :
    load_data (some csvNoLat) =
      LoadResult.raised (PdError.keyError ["latitude"]) := by
  exact ((load_data_missing_columns csvNoLat).2.1 (by decide)
    (Or.inl (by decide))).trans (by decide)

/-- C10 witness: a concrete upload without arrest_date whose rows hold a
null latitude and a zero latitude, all retained verbatim. -/
theorem upload_fallback_no_preprocess_witness :
    "arrest_date" ∉ csvUpload.columns ∧
      upload_fallback csvUpload = UploadResult.raw [rowNull, rowZero] ∧
      rowNull.latitude = none ∧ rowZero.latitude = some 0 := by
  have h : "arrest_date" ∉ csvUpload.columns := by decide
  exact ⟨h, upload_fallback_no_preprocess csvUpload h, rfl, rfl⟩

end App
